import Mathlib

/-!
Verification of the batch FBX→GLB conversion pipeline (`main.py`).

The development shallowly embeds the two core functions of the source:

* `convert_fbx_to_glb` (main.py lines 35-77): one conversion job — run the
  external `fbx2gltf` process (success iff exit status 0, `check=True`),
  load the produced file, apply the scene transform (texture stripping,
  material stripping, metadata merge), save it back.
* `FBXConverterApp.convert_all` (main.py lines 185-235): the batch worker —
  validate folders, parse the custom-metadata JSON text, resolve the file
  set, then run the jobs, pushing events onto the event queue, with a
  `try/finally` that always pushes a final `done` event.

External collaborators (the `fbx2gltf` process, `json.loads`, the pygltflib
load/save) are modelled as data supplied by an environment: per-job worlds
carry the exit code and the load/save outcomes, and the JSON parser is a
function parameter.
-/

/-- A JSON value, as produced by Python's `json.loads`.  Numbers are
modelled as integers (the claims only involve integer payloads); an object
is an insertion-ordered association list, as a Python `dict` is. -/
inductive Json where
  | null
  | bool (b : Bool)
  | num (n : Int)
  | str (s : String)
  | arr (xs : List Json)
  | obj (kvs : List (String × Json))

/-- First-match lookup in an insertion-ordered association list, as Python
`dict` lookup behaves on the lists we use to model dicts. -/
def lookupKey (k : String) : List (String × Json) → Option Json
  | [] => none
  | kv :: rest => if k = kv.1 then some kv.2 else lookupKey k rest

/-- Python `dict.update`: keys already in `base` keep their position and
take the value from `upd`; keys of `upd` not in `base` are appended in the
order of `upd`. -/
def dictUpdate (base upd : List (String × Json)) : List (String × Json) :=
  base.map (fun kv =>
    match lookupKey kv.1 upd with
    | some v => (kv.1, v)
    | none => kv)
  ++ upd.filter (fun kv => (lookupKey kv.1 base).isNone)

/-- `material.pbrMetallicRoughness` as the transform touches it: the two
texture bindings and the remaining (non-texture) pbr data. -/
structure Pbr where
  baseColorTexture : Option Nat
  metallicRoughnessTexture : Option Nat
  baseColorFactor : List Int
deriving DecidableEq

/-- A glTF material as the transform touches it (main.py lines 55-62). -/
structure Material where
  name : String
  pbrMetallicRoughness : Option Pbr
  normalTexture : Option Nat
  occlusionTexture : Option Nat
  emissiveTexture : Option Nat
deriving DecidableEq

/-- A mesh primitive: the transform only touches its material index. -/
structure Primitive where
  material : Option Nat
deriving DecidableEq

structure Mesh where
  primitives : List Primitive
deriving DecidableEq

/-- The loaded scene (`GLTF2` object) as the transform touches it:
materials, the global texture and image lists, the meshes, and the
`extras` metadata bag (`None` in Python ↦ `none`). -/
structure GLTF2 where
  materials : List Material
  textures : List Nat
  images : List String
  meshes : List Mesh
  extras : Option (List (String × Json))

/-- Lines 56-62: clear all five texture bindings of one material.  The two
pbr bindings exist only when `pbrMetallicRoughness` is not `None`
(the `getattr`/`is not None` guard). -/
def stripMaterialTextures (m : Material) : Material :=
  { m with
    pbrMetallicRoughness := m.pbrMetallicRoughness.map (fun p =>
      { p with baseColorTexture := none, metallicRoughnessTexture := none }),
    normalTexture := none,
    occlusionTexture := none,
    emissiveTexture := none }

/-- Lines 54-64: `if remove_textures:` strip every material's texture
bindings, then empty the global texture and image lists. -/
def textureStep (remove_textures : Bool) (g : GLTF2) : GLTF2 :=
  if remove_textures then
    { g with
      materials := g.materials.map stripMaterialTextures,
      textures := [],
      images := [] }
  else g

/-- Lines 66-70: `if not keep_materials:` clear every primitive's material
reference, then empty the global material list. -/
def materialStep (keep_materials : Bool) (g : GLTF2) : GLTF2 :=
  if keep_materials then g
  else
    { g with
      meshes := g.meshes.map (fun m =>
        { m with primitives := m.primitives.map (fun p => { p with material := none }) }),
      materials := [] }

/-- Lines 72-75: `if custom_data:` create the extras dict if absent and
`update` it with the custom data.  An empty dict is falsy in Python, so an
empty mapping leaves the scene untouched. -/
def metadataStep (custom_data : List (String × Json)) (g : GLTF2) : GLTF2 :=
  if custom_data.isEmpty then g
  else { g with extras := some (dictUpdate (g.extras.getD []) custom_data) }

/-- The whole scene transform of `convert_fbx_to_glb` (lines 54-75), in the
source's order: textures first, then materials, then metadata. -/
def applyTransform (keep_materials remove_textures : Bool)
    (custom_data : List (String × Json)) (g : GLTF2) : GLTF2 :=
  metadataStep custom_data (materialStep keep_materials (textureStep remove_textures g))

/-- The typed failure of one job, matching the two `except` clauses of the
batch loop (lines 225-228): `subprocess.CalledProcessError` carries the
child's exit status; any other exception is carried as its message. -/
inductive JobError where
  | calledProcessError (returncode : Nat)
  | otherError (msg : String)
deriving DecidableEq

/-- `str(e)` for a `subprocess.CalledProcessError`: the diagnostic text
includes the exit status. -/
def cpeMessage (returncode : Nat) : String :=
  "Command fbx2gltf returned non-zero exit status " ++ toString returncode ++ "."

/-- Lines 44-49: `subprocess.run([...], check=True)`.  Success is decided
solely by the exit status being zero; a non-zero status raises
`CalledProcessError` carrying that status. -/
def runExternalConverter (exitCode : Nat) : Except JobError Unit :=
  if exitCode = 0 then Except.ok () else Except.error (JobError.calledProcessError exitCode)

/-- The external world of one job: what the `fbx2gltf` child process does
and whether the pygltflib load/save succeed.  `toolStdout` is whatever the
child prints; the code never reads it.  `toolOutput` is the file content
the tool writes to the destination path when it succeeds. -/
structure JobWorld where
  exitCode : Nat
  toolStdout : String
  toolOutput : GLTF2
  loadError : Option String
  saveError : Option String

/-- Outcome of one `convert_fbx_to_glb` call: the Python return/raise
behaviour, the final content at the destination path, and how many times
the external converter was invoked. -/
structure JobResult where
  result : Except JobError Unit
  disk : Option GLTF2
  converterInvocations : Nat

/-- `convert_fbx_to_glb` (lines 35-77) against a job world, tracking the
destination file.  The tool writes the destination on success; the load
reads that file; the save overwrites it with the transformed scene.  There
is no cleanup path: an exception after the tool ran leaves the tool's
output on disk. -/
def convert_fbx_to_glb (keep_materials remove_textures : Bool)
    (custom_data : List (String × Json)) (w : JobWorld) (disk0 : Option GLTF2) :
    JobResult :=
  match runExternalConverter w.exitCode with
  | Except.error e => { result := Except.error e, disk := disk0, converterInvocations := 1 }
  | Except.ok _ =>
    let disk1 := some w.toolOutput
    match w.loadError with
    | some msg =>
      { result := Except.error (JobError.otherError msg), disk := disk1, converterInvocations := 1 }
    | none =>
      let g := applyTransform keep_materials remove_textures custom_data w.toolOutput
      match w.saveError with
      | some msg =>
        { result := Except.error (JobError.otherError msg), disk := disk1, converterInvocations := 1 }
      | none =>
        { result := Except.ok (), disk := some g, converterInvocations := 1 }

/-- The events pushed on the queue by `convert_all` and its collaborators
(main.py lines 190-235), tagged exactly as the tuples in the source. -/
inductive Event where
  | setmax (n : Nat)
  | progress (i : Nat)
  | status (msg : String)
  | info (title msg : String)
  | warn (title msg : String)
  | error (title msg : String)
  | done
deriving DecidableEq

/-- The environment of one `convert_all` run: the folder checks, the
custom-data text and the external `json.loads` behaviour on it, the
resolved file list (Python: `sorted(input_folder.glob("*.fbx"))` — the
environment supplies the already-sorted list of matching file names), and
the outcome of `convert_fbx_to_glb` for each file. -/
structure Env where
  inputFolderExists : Bool
  outputFolderExists : Bool
  customDataText : String
  parseJson : String → Except String Json
  fbxFiles : List String
  convertResult : String → Except JobError Unit

/-- Python `str.strip()`: drop leading and trailing whitespace. -/
def pyStrip (s : String) : String :=
  String.mk
    (((s.toList.dropWhile Char.isWhitespace).reverse.dropWhile Char.isWhitespace).reverse)

/-- Lines 194-198: strip the text; blank text leaves the custom data as an
empty dict, non-blank text goes through `json.loads`. -/
def metadataResult (env : Env) : Except String Json :=
  let s := pyStrip env.customDataText
  if s.isEmpty then Except.ok (Json.obj []) else env.parseJson s

/-- The events of one iteration of the batch loop (lines 214-230): the
status line, then on failure the `except` clause's error event, then —
`finally:` — the unconditional progress event. -/
def jobEvents (total i : Nat) (f : String) (r : Except JobError Unit) : List Event :=
  Event.status ("Processing " ++ f ++ " (" ++ toString i ++ "/" ++ toString total ++ ")") ::
  (match r with
   | Except.ok _ => []
   | Except.error (JobError.calledProcessError c) =>
     [Event.error "Conversion failed" ("fbx2gltf failed for " ++ f ++ ":\n" ++ cpeMessage c)]
   | Except.error (JobError.otherError m) =>
     [Event.error "Error" ("Error processing " ++ f ++ ": " ++ m)])
  ++ [Event.progress i]

/-- The batch loop over the remaining files, `i` being the 1-based index of
the first of them (Python: `enumerate(fbx_files, start=1)`). -/
def runJobs (env : Env) (total : Nat) : Nat → List String → List Event
  | _, [] => []
  | i, f :: fs => jobEvents total i f (env.convertResult f) ++ runJobs env total (i + 1) fs

/-- The body of the `try:` in `convert_all` (lines 186-233): validation
with early returns, then `setmax`, the batch loop, and the closing status
and info events. -/
def convertBody (env : Env) : List Event :=
  if !(env.inputFolderExists && env.outputFolderExists) then
    [Event.error "Error" "Please select valid input and output folders."]
  else
    match metadataResult env with
    | Except.error e => [Event.error "Invalid JSON" ("Custom data is not valid JSON:\n" ++ e)]
    | Except.ok _ =>
      if env.fbxFiles.isEmpty then
        [Event.info "Info" "No FBX files found in input folder."]
      else
        Event.setmax env.fbxFiles.length ::
        runJobs env env.fbxFiles.length 1 env.fbxFiles ++
        [Event.status "Conversion complete",
         Event.info "Done" ("Converted " ++ toString env.fbxFiles.length ++ " FBX files to GLB.")]

/-- `convert_all` (lines 185-235): the `finally:` clause pushes `done`
after every path of the body. -/
def convert_all (env : Env) : List Event :=
  convertBody env ++ [Event.done]

/-- The expected status messages of the batch loop, in file order, `i`
being the 1-based index of the first remaining file. -/
def statusMessages (total : Nat) : Nat → List String → List String
  | _, [] => []
  | i, f :: fs =>
    ("Processing " ++ f ++ " (" ++ toString i ++ "/" ++ toString total ++ ")") ::
    statusMessages total (i + 1) fs

/-- The error event the batch loop emits for file `f` failing with `e`
(the two `except` clauses, lines 225-228). -/
def errorEventFor (f : String) (e : JobError) : Event :=
  match e with
  | JobError.calledProcessError c =>
    Event.error "Conversion failed" ("fbx2gltf failed for " ++ f ++ ":\n" ++ cpeMessage c)
  | JobError.otherError m =>
    Event.error "Error" ("Error processing " ++ f ++ ": " ++ m)

/-- All five texture bindings of a material are unset. -/
def texturesCleared (m : Material) : Bool :=
  (match m.pbrMetallicRoughness with
   | none => true
   | some p => p.baseColorTexture.isNone && p.metallicRoughnessTexture.isNone)
  && m.normalTexture.isNone && m.occlusionTexture.isNone && m.emissiveTexture.isNone

/-- Whether validation in `convert_all` accepts the metadata text, read off
the source: blank text is accepted with `custom_data = {}`; non-blank text
is accepted exactly when `json.loads` succeeds (lines 194-202). -/
def metadataAccepted (env : Env) : Bool :=
  match metadataResult env with
  | Except.ok _ => true
  | Except.error _ => false

/-- Modelled from the spec's words (for comparison with `metadataAccepted`):
the metadata text "must parse as a JSON object", with blank text treated as
no metadata. -/
def specMetadataAccepted (env : Env) : Bool :=
  (pyStrip env.customDataText).isEmpty ||
  (match metadataResult env with
   | Except.ok (Json.obj _) => true
   | _ => false)

/-- Payload of a progress event. -/
def progressPayload : Event → Option Nat
  | Event.progress i => some i
  | _ => none

/-- Payload of a setmax event. -/
def setmaxPayload : Event → Option Nat
  | Event.setmax n => some n
  | _ => none

/-- Payload of a status event. -/
def statusPayload : Event → Option String
  | Event.status m => some m
  | _ => none

/-- A sample material referencing three textures. -/
def matA : Material :=
  { name := "matA",
    pbrMetallicRoughness := some { baseColorTexture := some 0,
                                   metallicRoughnessTexture := some 1,
                                   baseColorFactor := [1, 1, 1, 1] },
    normalTexture := some 2,
    occlusionTexture := none,
    emissiveTexture := none }

/-- A second sample material referencing three textures. -/
def matB : Material :=
  { name := "matB",
    pbrMetallicRoughness := some { baseColorTexture := some 3,
                                   metallicRoughnessTexture := some 4,
                                   baseColorFactor := [] },
    normalTexture := none,
    occlusionTexture := some 5,
    emissiveTexture := none }

/-- A sample scene: two materials with three textures each, one mesh with
one primitive referencing a material, and one extras key. -/
def sceneA : GLTF2 :=
  { materials := [matA, matB],
    textures := [0, 1, 2, 3, 4, 5],
    images := ["a.png", "b.png"],
    meshes := [{ primitives := [{ material := some 0 }] }],
    extras := some [("a", Json.num 1)] }

/-- A sample batch environment: valid folders, blank metadata, three files,
the second of which fails with a generic exception. -/
def envOk : Env :=
  { inputFolderExists := true,
    outputFolderExists := true,
    customDataText := "",
    parseJson := fun _ => Except.error "never reached",
    fbxFiles := ["a.fbx", "b.fbx", "c.fbx"],
    convertResult := fun f =>
      if f = "b.fbx" then Except.error (JobError.otherError "boom") else Except.ok () }

/-- An environment whose input folder does not exist. -/
def envNoFolder : Env :=
  { inputFolderExists := false,
    outputFolderExists := true,
    customDataText := "x",
    parseJson := fun _ => Except.error "ignored",
    fbxFiles := ["a.fbx"],
    convertResult := fun _ => Except.ok () }

/-- An environment whose metadata text is the JSON array `[1, 2]`: valid
JSON (so `json.loads` succeeds, returning a list), but not a JSON object. -/
def envArrayMetadata : Env :=
  { inputFolderExists := true,
    outputFolderExists := true,
    customDataText := "[1, 2]",
    parseJson := fun _ => Except.ok (Json.arr [Json.num 1, Json.num 2]),
    fbxFiles := ["model.fbx"],
    convertResult := fun _ => Except.ok () }

/-- A sample job world: the converter succeeds but the pygltflib load
raises. -/
def worldLoadFails : JobWorld :=
  { exitCode := 0,
    toolStdout := "converted",
    toolOutput := sceneA,
    loadError := some "bad chunk",
    saveError := none }

/-! ## Helper lemmas -/

theorem done_not_mem_jobEvents (total i : Nat) (f : String) (r : Except JobError Unit) :
    Event.done ∉ jobEvents total i f r := by
  cases r with
  | ok u => simp [jobEvents]
  | error e => cases e <;> simp [jobEvents]

theorem done_not_mem_runJobs (env : Env) (total i : Nat) (fs : List String) :
    Event.done ∉ runJobs env total i fs := by
  induction fs generalizing i with
  | nil => simp [runJobs]
  | cons f fs ih =>
    simp only [runJobs, List.mem_append]
    push_neg
    exact ⟨done_not_mem_jobEvents _ _ _ _, ih _⟩

theorem done_not_mem_convertBody (env : Env) : Event.done ∉ convertBody env := by
  unfold convertBody
  split
  · simp
  · split
    · simp
    · split
      · simp
      · intro hmem
        rcases List.mem_cons.mp hmem with h | h
        · cases h
        · rcases List.mem_append.mp h with h | h
          · exact done_not_mem_runJobs env _ _ _ h
          · simp at h

theorem convert_all_getLast (env : Env) :
    (convert_all env).getLast? = some Event.done := by
  simp [convert_all]

theorem convert_all_count_done (env : Env) :
    (convert_all env).count Event.done = 1 := by
  unfold convert_all
  rw [List.count_append]
  rw [List.count_eq_zero.mpr (done_not_mem_convertBody env)]
  simp

theorem jobEvents_filterMap_progress (total i : Nat) (f : String) (r : Except JobError Unit) :
    (jobEvents total i f r).filterMap progressPayload = [i] := by
  cases r with
  | ok u => simp [jobEvents, progressPayload]
  | error e => cases e <;> simp [jobEvents, progressPayload]

theorem runJobs_filterMap_progress (env : Env) (total i : Nat) (fs : List String) :
    (runJobs env total i fs).filterMap progressPayload = List.range' i fs.length := by
  induction fs generalizing i with
  | nil => simp [runJobs]
  | cons f fs ih =>
    rw [runJobs, List.filterMap_append, jobEvents_filterMap_progress, ih]
    simp [List.range'_succ]

theorem jobEvents_filterMap_setmax (total i : Nat) (f : String) (r : Except JobError Unit) :
    (jobEvents total i f r).filterMap setmaxPayload = [] := by
  cases r with
  | ok u => simp [jobEvents, setmaxPayload]
  | error e => cases e <;> simp [jobEvents, setmaxPayload]

theorem runJobs_filterMap_setmax (env : Env) (total i : Nat) (fs : List String) :
    (runJobs env total i fs).filterMap setmaxPayload = [] := by
  induction fs generalizing i with
  | nil => simp [runJobs]
  | cons f fs ih =>
    rw [runJobs, List.filterMap_append, jobEvents_filterMap_setmax, ih]
    rfl

theorem jobEvents_filterMap_status (total i : Nat) (f : String) (r : Except JobError Unit) :
    (jobEvents total i f r).filterMap statusPayload =
      ["Processing " ++ f ++ " (" ++ toString i ++ "/" ++ toString total ++ ")"] := by
  cases r with
  | ok u => simp [jobEvents, statusPayload]
  | error e => cases e <;> simp [jobEvents, statusPayload]

theorem runJobs_filterMap_status (env : Env) (total i : Nat) (fs : List String) :
    (runJobs env total i fs).filterMap statusPayload = statusMessages total i fs := by
  induction fs generalizing i with
  | nil => simp [runJobs, statusMessages]
  | cons f fs ih =>
    rw [runJobs, List.filterMap_append, jobEvents_filterMap_status, ih]
    simp [statusMessages]

/-- When validation passes and files were found, the run is the `setmax`
event, the batch loop, the two closing events and `done`. -/
theorem convert_all_valid (env : Env)
    (h1 : env.inputFolderExists = true) (h2 : env.outputFolderExists = true)
    (hm : (metadataResult env).isOk = true) (hf : env.fbxFiles ≠ []) :
    convert_all env =
      Event.setmax env.fbxFiles.length ::
      runJobs env env.fbxFiles.length 1 env.fbxFiles ++
      [Event.status "Conversion complete",
       Event.info "Done" ("Converted " ++ toString env.fbxFiles.length ++ " FBX files to GLB."),
       Event.done] := by
  obtain ⟨j, hj⟩ : ∃ j, metadataResult env = Except.ok j := by
    cases h : metadataResult env with
    | ok j => exact ⟨j, rfl⟩
    | error e => rw [h] at hm; simp [Except.isOk, Except.toBool] at hm
  unfold convert_all convertBody
  rw [h1, h2, hj]
  simp [hf]

theorem errorEvent_mem_jobEvents (total i : Nat) (f : String) (err : JobError) :
    errorEventFor f err ∈ jobEvents total i f (Except.error err) := by
  cases err <;> simp [jobEvents, errorEventFor]

theorem errorEvent_mem_runJobs (env : Env) (total : Nat) (f : String) (err : JobError)
    (he : env.convertResult f = Except.error err) (i : Nat) (fs : List String)
    (hf : f ∈ fs) : errorEventFor f err ∈ runJobs env total i fs := by
  induction fs generalizing i with
  | nil => cases hf
  | cons g gs ih =>
    rw [runJobs, List.mem_append]
    rcases List.mem_cons.mp hf with h | h
    · left
      subst h
      rw [he]
      exact errorEvent_mem_jobEvents total i f err
    · right
      exact ih (i + 1) h

/-! ## Claims -/

/-- C1: every run of `convert_all` — early exits included — pushes exactly
one `done` event, and that event is the last of the run. -/
theorem convert_all_exactly_one_done_last (env : Env) :
    (convert_all env).count Event.done = 1 ∧
    (convert_all env).getLast? = some Event.done :=
  ⟨convert_all_count_done env, convert_all_getLast env⟩

/-- C2: when validation passes with `N` resolved files, the run has exactly
one `setmax` event with payload `N`, its progress payloads are exactly
`1, 2, ..., N` (no gaps, no repeats, increasing), there are exactly `N` of
them, and the `setmax` event comes before every progress event.  The
per-file outcomes `env.convertResult` are arbitrary, so a progress event is
emitted for job `i` whether it succeeded or failed. -/
theorem convert_all_progress_exact (env : Env) (N : Nat)
    (h1 : env.inputFolderExists = true) (h2 : env.outputFolderExists = true)
    (hm : (metadataResult env).isOk = true)
    (hN : env.fbxFiles.length = N) (hpos : 0 < N) :
    (convert_all env).filterMap setmaxPayload = [N] ∧
    (convert_all env).filterMap progressPayload = List.range' 1 N ∧
    ((convert_all env).filterMap progressPayload).length = N ∧
    ∃ pre post, convert_all env = pre ++ Event.setmax N :: post ∧
      pre.filterMap progressPayload = [] := by
  have hf : env.fbxFiles ≠ [] := by
    intro h
    rw [h] at hN
    simp at hN
    omega
  have hrun := convert_all_valid env h1 h2 hm hf
  refine ⟨?_, ?_, ?_, ?_⟩
  · rw [hrun]
    simp [setmaxPayload, runJobs_filterMap_setmax, hN]
  · rw [hrun]
    simp [progressPayload, runJobs_filterMap_progress, setmaxPayload, hN]
  · rw [hrun]
    simp [progressPayload, runJobs_filterMap_progress, setmaxPayload, hN]
  · refine ⟨[], runJobs env env.fbxFiles.length 1 env.fbxFiles ++
      [Event.status "Conversion complete",
       Event.info "Done" ("Converted " ++ toString env.fbxFiles.length ++ " FBX files to GLB."),
       Event.done], ?_, rfl⟩
    rw [hrun, hN]
    simp

/-- C2 witness: a concrete three-file batch, one of whose jobs fails. -/
theorem convert_all_progress_exact_witness :
    (convert_all envOk).filterMap setmaxPayload = [3] ∧
    (convert_all envOk).filterMap progressPayload = List.range' 1 3 :=
  ⟨(convert_all_progress_exact envOk 3 rfl rfl (by decide) rfl (by decide)).1,
   (convert_all_progress_exact envOk 3 rfl rfl (by decide) rfl (by decide)).2.1⟩

/-- C3: a failing job is isolated: with file `fk` at position `k` failing,
every file still gets its status line in order, the error event naming
`fk` is in the run, every file still gets its progress event, and the run
still ends with `done`. -/
theorem convert_all_job_failure_isolated (env : Env) (k : Nat) (fk : String) (err : JobError)
    (h1 : env.inputFolderExists = true) (h2 : env.outputFolderExists = true)
    (hm : (metadataResult env).isOk = true)
    (hk : env.fbxFiles.get? k = some fk)
    (herr : env.convertResult fk = Except.error err) :
    (convert_all env).filterMap statusPayload =
      statusMessages env.fbxFiles.length 1 env.fbxFiles ++ ["Conversion complete"] ∧
    errorEventFor fk err ∈ convert_all env ∧
    (convert_all env).filterMap progressPayload = List.range' 1 env.fbxFiles.length ∧
    (convert_all env).getLast? = some Event.done := by
  have hmem : fk ∈ env.fbxFiles := List.get?_mem hk
  have hf : env.fbxFiles ≠ [] := by
    intro h
    rw [h] at hmem
    cases hmem
  have hrun := convert_all_valid env h1 h2 hm hf
  refine ⟨?_, ?_, ?_, convert_all_getLast env⟩
  · rw [hrun]
    simp [statusPayload, runJobs_filterMap_status, setmaxPayload]
  · rw [hrun]
    exact List.mem_cons_of_mem _ (List.mem_append_left _
      (errorEvent_mem_runJobs env env.fbxFiles.length fk err herr 1 env.fbxFiles hmem))
  · rw [hrun]
    simp [progressPayload, runJobs_filterMap_progress, setmaxPayload]

/-- C3 witness: in the concrete three-file batch, the failing second file
gets its error event and the run keeps its shape. -/
theorem convert_all_job_failure_isolated_witness :
    errorEventFor "b.fbx" (JobError.otherError "boom") ∈ convert_all envOk :=
  (convert_all_job_failure_isolated envOk 1 "b.fbx" (JobError.otherError "boom")
    rfl rfl (by decide) (by decide) rfl).2.1

/-- C7: validation runs in order — folders first, then metadata, then the
file set — with the first failure winning; each failure path is exactly one
`Error` event (an `Info` event for an empty file set) followed by `done`,
with no `setmax`, no `progress` and no job started. -/
theorem convert_all_validation_order (env : Env) :
    ((env.inputFolderExists = false ∨ env.outputFolderExists = false) →
      convert_all env =
        [Event.error "Error" "Please select valid input and output folders.", Event.done]) ∧
    (env.inputFolderExists = true → env.outputFolderExists = true →
      ∀ e, metadataResult env = Except.error e →
      convert_all env =
        [Event.error "Invalid JSON" ("Custom data is not valid JSON:\n" ++ e), Event.done]) ∧
    (env.inputFolderExists = true → env.outputFolderExists = true →
      (metadataResult env).isOk = true → env.fbxFiles = [] →
      convert_all env =
        [Event.info "Info" "No FBX files found in input folder.", Event.done]) := by
  refine ⟨?_, ?_, ?_⟩
  · intro h
    unfold convert_all convertBody
    rcases h with h | h <;> rw [h] <;> simp
  · intro h1 h2 e he
    unfold convert_all convertBody
    rw [h1, h2, he]
    simp
  · intro h1 h2 hm hf
    obtain ⟨j, hj⟩ : ∃ j, metadataResult env = Except.ok j := by
      cases h : metadataResult env with
      | ok j => exact ⟨j, rfl⟩
      | error e => rw [h] at hm; simp [Except.isOk, Except.toBool] at hm
    unfold convert_all convertBody
    rw [h1, h2, hj, hf]
    simp

/-- C7 witness: the run for a missing input folder. -/
theorem convert_all_validation_order_witness :
    convert_all envNoFolder =
      [Event.error "Error" "Please select valid input and output folders.", Event.done] :=
  (convert_all_validation_order envNoFolder).1 (Or.inl rfl)

/-- C8 counterexample: the metadata text `[1, 2]` is neither blank nor a
JSON object, yet `json.loads` accepts it, so validation accepts the batch
and a job is started (`setmax` is emitted) — against the claim that only
blank text or a JSON object passes validation. -/
theorem metadata_non_object_accepted :
    metadataAccepted envArrayMetadata = true ∧
    specMetadataAccepted envArrayMetadata = false ∧
    Event.setmax 1 ∈ convert_all envArrayMetadata := by
  refine ⟨rfl, by decide, ?_⟩
  rw [convert_all_valid envArrayMetadata rfl rfl rfl (by decide)]
  exact List.mem_cons_self _ _

/-- C8 as amended: validation accepts the metadata text iff it is blank or
parses as **any** valid JSON value (object or not); text that fails to
parse yields the invalid-JSON `Error` followed by `done` with zero jobs
started. -/
theorem metadata_accept_iff_parses (env : Env) :
    (metadataAccepted env = true ↔
      ((pyStrip env.customDataText).isEmpty = true ∨
        (env.parseJson (pyStrip env.customDataText)).isOk = true)) ∧
    (env.inputFolderExists = true → env.outputFolderExists = true →
      ∀ e, metadataResult env = Except.error e →
      convert_all env =
        [Event.error "Invalid JSON" ("Custom data is not valid JSON:\n" ++ e), Event.done]) := by
  constructor
  · have h0 : metadataAccepted env = (metadataResult env).isOk := by
      unfold metadataAccepted
      cases metadataResult env <;> rfl
    rw [h0]
    unfold metadataResult
    cases hb : (pyStrip env.customDataText).isEmpty with
    | true => simp [hb, Except.isOk, Except.toBool]
    | false => simp [hb, Except.isOk, Except.toBool]
  · intro h1 h2 e he
    unfold convert_all convertBody
    rw [h1, h2, he]
    simp

/-- C8 amended witness: blank text is accepted; the `[1, 2]` text is
accepted because `json.loads` accepts it. -/
theorem metadata_accept_iff_parses_witness :
    metadataAccepted envArrayMetadata = true :=
  (metadata_accept_iff_parses envArrayMetadata).1.mpr (Or.inr (by decide))

theorem texturesCleared_strip (m : Material) :
    texturesCleared (stripMaterialTextures m) = true := by
  cases h : m.pbrMetallicRoughness <;>
    simp [stripMaterialTextures, texturesCleared, h]

theorem extras_materialStep_textureStep (km rt : Bool) (g : GLTF2) :
    (materialStep km (textureStep rt g)).extras = g.extras := by
  cases km <;> cases rt <;> rfl

theorem lookupKey_append (k : String) (a b : List (String × Json)) :
    lookupKey k (a ++ b) =
      match lookupKey k a with
      | some v => some v
      | none => lookupKey k b := by
  induction a with
  | nil => simp [lookupKey]
  | cons kv rest ih =>
    by_cases h : k = kv.1 <;> simp [lookupKey, h, ih]

theorem lookupKey_map_upd (upd base : List (String × Json)) (k : String) (v : Json)
    (h : lookupKey k upd = some v) :
    lookupKey k (base.map (fun kv =>
      match lookupKey kv.1 upd with
      | some w => (kv.1, w)
      | none => kv)) = (lookupKey k base).map (fun _ => v) := by
  induction base with
  | nil => rfl
  | cons kv rest ih =>
    by_cases hk : k = kv.1
    · subst hk
      simp [lookupKey, h]
    · cases hm : lookupKey kv.1 upd <;> simp [lookupKey, hk, hm, ih]

theorem lookupKey_map_upd_none (upd base : List (String × Json)) (k : String)
    (h : lookupKey k upd = none) :
    lookupKey k (base.map (fun kv =>
      match lookupKey kv.1 upd with
      | some w => (kv.1, w)
      | none => kv)) = lookupKey k base := by
  induction base with
  | nil => rfl
  | cons kv rest ih =>
    by_cases hk : k = kv.1
    · subst hk
      simp [lookupKey, h]
    · cases hm : lookupKey kv.1 upd <;> simp [lookupKey, hk, hm, ih]

theorem lookupKey_filter_notin (base upd : List (String × Json)) (k : String)
    (h : lookupKey k base = none) :
    lookupKey k (upd.filter (fun kv => (lookupKey kv.1 base).isNone)) =
      lookupKey k upd := by
  induction upd with
  | nil => rfl
  | cons kv rest ih =>
    by_cases hk : k = kv.1
    · subst hk
      simp [List.filter_cons, h, lookupKey]
    · cases hp : (lookupKey kv.1 base).isNone <;>
        simp [List.filter_cons, hp, lookupKey, hk, ih]

theorem lookupKey_filter_of_none (p : String × Json → Bool)
    (upd : List (String × Json)) (k : String) (h : lookupKey k upd = none) :
    lookupKey k (upd.filter p) = none := by
  induction upd with
  | nil => rfl
  | cons kv rest ih =>
    by_cases hk : k = kv.1
    · rw [lookupKey, if_pos hk] at h
      cases h
    · rw [lookupKey, if_neg hk] at h
      cases hp : p kv <;> simp [List.filter_cons, hp, lookupKey, hk, ih h]

theorem lookupKey_dictUpdate_of_mem (base upd : List (String × Json)) (k : String) (v : Json)
    (h : lookupKey k upd = some v) :
    lookupKey k (dictUpdate base upd) = some v := by
  rw [dictUpdate, lookupKey_append, lookupKey_map_upd upd base k v h]
  cases hb : lookupKey k base with
  | some w => rfl
  | none =>
    show lookupKey k (upd.filter fun kv => (lookupKey kv.1 base).isNone) = some v
    rw [lookupKey_filter_notin base upd k hb, h]

theorem lookupKey_dictUpdate_of_notin (base upd : List (String × Json)) (k : String)
    (h : lookupKey k upd = none) :
    lookupKey k (dictUpdate base upd) = lookupKey k base := by
  rw [dictUpdate, lookupKey_append, lookupKey_map_upd_none upd base k h]
  cases hb : lookupKey k base with
  | some w => rfl
  | none => exact lookupKey_filter_of_none _ upd k h

/-- C4: with `removeTextures` true and `keepMaterials` true, the transform
empties the global texture and image lists and clears all five texture
bindings of every material — whether or not they were set — while keeping
every material in the material list (same length, same names, exactly the
stripped originals). -/
theorem transform_removes_textures (g : GLTF2) (cd : List (String × Json)) :
    (applyTransform true true cd g).textures = [] ∧
    (applyTransform true true cd g).images = [] ∧
    (applyTransform true true cd g).materials = g.materials.map stripMaterialTextures ∧
    (applyTransform true true cd g).materials.length = g.materials.length ∧
    (∀ m ∈ (applyTransform true true cd g).materials, texturesCleared m = true) ∧
    (applyTransform true true cd g).materials.map Material.name =
      g.materials.map Material.name := by
  have hshape : (applyTransform true true cd g).textures = [] ∧
      (applyTransform true true cd g).images = [] ∧
      (applyTransform true true cd g).materials = g.materials.map stripMaterialTextures := by
    unfold applyTransform metadataStep materialStep textureStep
    cases hcd : cd.isEmpty <;> simp
  refine ⟨hshape.1, hshape.2.1, hshape.2.2, ?_, ?_, ?_⟩
  · rw [hshape.2.2, List.length_map]
  · rw [hshape.2.2]
    intro m hm
    rcases List.mem_map.mp hm with ⟨m0, _, rfl⟩
    exact texturesCleared_strip m0
  · rw [hshape.2.2, List.map_map]
    exact List.map_congr_left (fun m _ => rfl)

/-- C5: with `keepMaterials` false the transform clears the material
reference of every primitive of every mesh and empties the global material
list, for either value of `removeTextures` (material stripping does not
depend on texture stripping), and the transform is literally the
metadata step after the material step after the texture step — material
stripping runs after texture stripping. -/
theorem transform_strips_materials (g : GLTF2) (cd : List (String × Json)) (rt : Bool) :
    (applyTransform false rt cd g).materials = [] ∧
    (∀ mesh ∈ (applyTransform false rt cd g).meshes,
      ∀ p ∈ mesh.primitives, p.material = none) ∧
    applyTransform false rt cd g =
      metadataStep cd (materialStep false (textureStep rt g)) := by
  refine ⟨?_, ?_, rfl⟩
  · unfold applyTransform metadataStep materialStep textureStep
    cases hcd : cd.isEmpty <;> cases rt <;> simp
  · have hm : (applyTransform false rt cd g).meshes =
        (textureStep rt g).meshes.map (fun m =>
          { m with primitives := m.primitives.map (fun p =>
            { p with material := none }) }) := by
      unfold applyTransform metadataStep materialStep
      cases hcd : cd.isEmpty <;> simp
    rw [hm]
    intro mesh hmesh p hp
    rcases List.mem_map.mp hmesh with ⟨m0, _, rfl⟩
    rcases List.mem_map.mp hp with ⟨p0, _, rfl⟩
    rfl

/-- C6: a non-empty `customMetadata` mapping is merged into the extras bag
(created if absent): keys of the mapping win, keys absent from the mapping
keep their value from the scene. -/
theorem transform_merges_metadata (g : GLTF2) (km rt : Bool)
    (cd : List (String × Json)) (hcd : cd ≠ []) :
    ∃ e, (applyTransform km rt cd g).extras = some e ∧
      (∀ k v, lookupKey k cd = some v → lookupKey k e = some v) ∧
      (∀ k, lookupKey k cd = none →
        lookupKey k e = lookupKey k (g.extras.getD [])) := by
  have hne : cd.isEmpty = false := by
    cases cd with
    | nil => cases hcd rfl
    | cons a l => rfl
  refine ⟨dictUpdate (g.extras.getD []) cd, ?_, ?_, ?_⟩
  · unfold applyTransform metadataStep
    rw [hne]
    simp [extras_materialStep_textureStep]
  · intro k v h
    exact lookupKey_dictUpdate_of_mem _ cd k v h
  · intro k h
    exact lookupKey_dictUpdate_of_notin _ cd k h

/-- C6 witness: scene extras `a ↦ 1`, custom metadata `b ↦ 2`: the merge
exists, `b` maps to `2` and `a` is preserved. -/
theorem transform_merges_metadata_witness :
    ∃ e, (applyTransform true true [("b", Json.num 2)] sceneA).extras = some e ∧
      (∀ k v, lookupKey k [("b", Json.num 2)] = some v → lookupKey k e = some v) ∧
      (∀ k, lookupKey k [("b", Json.num 2)] = none →
        lookupKey k e = lookupKey k (sceneA.extras.getD [])) :=
  transform_merges_metadata sceneA true true [("b", Json.num 2)] (List.cons_ne_nil _ _)

/-- C9: the adapter call succeeds iff the child exits with status zero; a
non-zero status is the typed `CalledProcessError` carrying the exit code;
`convert_fbx_to_glb` invokes the converter exactly once (no retry) and its
outcome ignores the child's output stream; the job runner turns a
`CalledProcessError` into exactly one `Error` event naming the file and
carrying the diagnostics. -/
theorem adapter_exit_status_contract :
    (∀ ec, (runExternalConverter ec).isOk = true ↔ ec = 0) ∧
    (∀ ec, ec ≠ 0 →
      runExternalConverter ec = Except.error (JobError.calledProcessError ec)) ∧
    (∀ km rt cd w d0, (convert_fbx_to_glb km rt cd w d0).converterInvocations = 1) ∧
    (∀ km rt cd w d0 s,
      convert_fbx_to_glb km rt cd { w with toolStdout := s } d0 =
        convert_fbx_to_glb km rt cd w d0) ∧
    (∀ total i f c,
      jobEvents total i f (Except.error (JobError.calledProcessError c)) =
        [Event.status ("Processing " ++ f ++ " (" ++ toString i ++ "/" ++ toString total ++ ")"),
         Event.error "Conversion failed" ("fbx2gltf failed for " ++ f ++ ":\n" ++ cpeMessage c),
         Event.progress i]) := by
  refine ⟨?_, ?_, ?_, ?_, ?_⟩
  · intro ec
    by_cases h : ec = 0 <;> simp [runExternalConverter, h, Except.isOk, Except.toBool]
  · intro ec h
    simp [runExternalConverter, h]
  · intro km rt cd w d0
    unfold convert_fbx_to_glb runExternalConverter
    by_cases h : w.exitCode = 0 <;>
      cases w.loadError <;> cases w.saveError <;> simp [h]
  · intro km rt cd w d0 s
    rfl
  · intro total i f c
    rfl

/-- C9 witness: exit status 2 is the typed failure carrying 2. -/
theorem adapter_exit_status_contract_witness :
    runExternalConverter 2 = Except.error (JobError.calledProcessError 2) :=
  adapter_exit_status_contract.2.1 2 (by decide)

/-- C10: when the converter exits 0 but the load or the save raises, the
job returns that error and the destination file is left holding the
converter's untransformed output — no cleanup, deletion or rollback. -/
theorem job_failure_leaves_tool_output (km rt : Bool) (cd : List (String × Json))
    (w : JobWorld) (disk0 : Option GLTF2)
    (hexit : w.exitCode = 0)
    (hfail : w.loadError.isSome = true ∨ w.saveError.isSome = true) :
    (∃ m, (convert_fbx_to_glb km rt cd w disk0).result =
      Except.error (JobError.otherError m)) ∧
    (convert_fbx_to_glb km rt cd w disk0).disk = some w.toolOutput := by
  unfold convert_fbx_to_glb runExternalConverter
  rw [hexit]
  cases hl : w.loadError with
  | some msg => exact ⟨⟨msg, rfl⟩, rfl⟩
  | none =>
    cases hs : w.saveError with
    | some msg => exact ⟨⟨msg, rfl⟩, rfl⟩
    | none =>
      rw [hl, hs] at hfail
      rcases hfail with h | h <;> cases h

/-- C10 witness: a concrete job whose load fails leaves the tool's output
on disk and reports the load error. -/
theorem job_failure_leaves_tool_output_witness :
    (convert_fbx_to_glb true true [] worldLoadFails none).disk = some sceneA :=
  (job_failure_leaves_tool_output true true [] worldLoadFails none rfl (Or.inl rfl)).2
